import Mathlib

/-!
# Verification of the Emit ePost decoder (`src/devices/emit_epost.c`)

Shallow embedding of `emit_epost_decode` and its helpers. Bytes are `Nat`
(kept below 256 by construction where it matters), bit rows are
`List Bool` (MSB-first within each byte), and the decode is a pure
function instrumented with the number of wall-clock reads and byte
extractor invocations it performs, so that control-flow properties can be
stated.

Library primitives of rtl_433 that the decoder calls but whose sources are
not part of this file set (`bitbuffer_search`, `bitbuffer_extract_bytes`,
`crc16`, the `DECODE_*` return codes of `decoder.h`) are modelled from the
specification's contracts; each carries a doc comment saying so.
-/

namespace EmitEpost

/-- TI DN509 whitening PN9 table, the 18-byte constant `whitening[18]`
from the source. -/
def whitening : List Nat :=
  [0xff, 0xe1, 0x1d, 0x9a, 0xed, 0x85, 0x33, 0x24, 0xea,
   0x7a, 0xd2, 0x39, 0x70, 0x97, 0x57, 0x0a, 0x54, 0x7d]

/-- The 48-bit frame marker bytes from the source: two preamble bytes
`0xaa 0xaa` and the sync word `0xd3 0x91 0xd3 0x91`. -/
def preambleBytes : List Nat := [0xaa, 0xaa, 0xd3, 0x91, 0xd3, 0x91]

/-- The eight bits of a byte, most significant first. -/
def byteBitsBE (b : Nat) : List Bool :=
  (List.range 8).map (fun i => b.testBit (7 - i))

/-- A byte list as a bit row, MSB-first within each byte. -/
def bytesToBits (bs : List Nat) : List Bool :=
  (bs.map byteBitsBE).flatten

/-- The frame marker as 48 bits. -/
def preambleBits : List Bool := bytesToBits preambleBytes

/-- Modelled from the spec: the Frame Locator scans the row left to right
for the first exact, contiguous occurrence of the pattern and otherwise
returns the sentinel "not found" equal to the row's bit length
(`bitbuffer_search` lives in rtl_433's `bitbuffer.c`, outside this file
set; the source checks the result against `bits_per_row` and adds the
marker width before extracting, so the returned index is the start of the
match). -/
def bitbuffer_search (row pat : List Bool) : Nat :=
  (((List.range (row.length + 1)).find?
      (fun p => (row.drop p).take pat.length == pat))).getD row.length

/-- Modelled from the spec: the Byte Extractor reads eight consecutive
bits starting at `pos`, MSB-first, as one byte; bits beyond the row's end
read as zero (`bitbuffer_extract_bytes` lives in rtl_433's `bitbuffer.c`,
outside this file set). -/
def extractByte (row : List Bool) (pos : Nat) : Nat :=
  (List.range 8).foldl
    (fun acc j => 2 * acc + (if row.getD (pos + j) false then 1 else 0)) 0

/-- Modelled from the spec: extract `nBytes` bytes starting at bit
position `pos` of the row. -/
def bitbuffer_extract_bytes (row : List Bool) (pos nBytes : Nat) : List Nat :=
  (List.range nBytes).map (fun k => extractByte row (pos + 8 * k))

/-- Modelled from the spec: one MSB-first shift step of a 16-bit CRC with
the given polynomial. -/
def crc16_step (poly crc : Nat) : Nat :=
  if crc.testBit 15 then ((2 * crc) ^^^ poly) % 65536 else (2 * crc) % 65536

/-- Modelled from the spec: fold one message byte into the running CRC:
XOR it into the high byte, then run eight shift steps. -/
def crc16_byte (poly crc b : Nat) : Nat :=
  (List.range 8).foldl (fun c _ => crc16_step poly c) (crc ^^^ (b <<< 8))

/-- Modelled from the spec: the generic checksum primitive `crc16` of
rtl_433 (not in this file set): a 16-bit CRC, most-significant-bit-first,
no final XOR, over the first `nBytes` bytes of the message, with the given
polynomial and initial value. -/
def crc16 (message : List Nat) (nBytes poly init : Nat) : Nat :=
  (message.take nBytes).foldl (crc16_byte poly) init

/-- Modelled from the spec: the `DECODE_*` return codes of rtl_433's
`decoder.h` (not in this file set); §7 requires each failure kind to carry
its own code, and the values follow the upstream convention. -/
def DECODE_ABORT_EARLY : Int := -1

/-- Modelled from the spec: see `DECODE_ABORT_EARLY`. -/
def DECODE_ABORT_LENGTH : Int := -2

/-- Modelled from the spec: see `DECODE_ABORT_EARLY`. -/
def DECODE_FAIL_MIC : Int := -3

/-- Modelled from the spec: see `DECODE_ABORT_EARLY`. -/
def DECODE_FAIL_SANITY : Int := -4

/-- A bit buffer: rows of bits, as handed to the decoder by the front
end. `num_rows` is the list length, `bits_per_row` the row lengths. -/
structure Bitbuffer where
  rows : List (List Bool)
  deriving DecidableEq

/-- The terminal states of the decode, following §4.6 of the spec: the
clock-read failure at function entry, the five guard failures, and
emission. -/
inductive Outcome where
  | clockFail
  | noData
  | noMarker
  | tooShort
  | sanityFail
  | micFail
  | emit
  deriving DecidableEq

/-- The fields of the emitted record that the claims are about (the hex
diagnostic strings are omitted; no claim mentions them). -/
structure DecodedRecord where
  emitcode : Nat
  epostcode : Nat
  timemins : Nat
  timesecs : Nat
  timems : Nat
  resend : Nat
  timestamp : Nat
  deriving DecidableEq

/-- The observable result of one decode invocation: the returned value,
the terminal state reached, the record (if emitted), and instrumentation
counting wall-clock reads and byte-extractor invocations. -/
structure DecodeResult where
  ret : Int
  outcome : Outcome
  record : Option DecodedRecord
  clockCalls : Nat
  extractorCalls : Nat
  deriving DecidableEq

/-- Row 0 of the buffer, the only row the decoder reads. -/
def rowOf (bb : Bitbuffer) : List Bool := bb.rows.getD 0 []

/-- `start_pos` in the source: the marker search on row 0. -/
def startPos (bb : Bitbuffer) : Nat := bitbuffer_search (rowOf bb) preambleBits

/-- The 12 bytes extracted at `start_pos + sizeof(preamble)*8`. -/
def rawFrame (bb : Bitbuffer) : List Nat :=
  bitbuffer_extract_bytes (rowOf bb) (startPos bb + 48) 12

/-- The dewhitening XOR of the source, `frame[i] ^= whitening[i]`, on the
bytes a frame actually holds. (The source's loop bound is `sizeof(frame)`
= 20, captured separately in `whiteningLoopIndices`; only the first 12
bytes are extracted and only they are read afterwards.) -/
def dewhiten (bs : List Nat) : List Nat :=
  List.zipWith (fun b w => b ^^^ w) bs whitening

/-- The dewhitened working frame of a decode attempt. -/
def workFrame (bb : Bitbuffer) : List Nat := dewhiten (rawFrame bb)

/-- `msgno = (frame[0] & 0x30) >> 4` from the source. -/
def msgnoOf (f : List Nat) : Nat := (f.getD 0 0 &&& 0x30) >>> 4

/-- `emitcode = frame[5] << 24 | frame[4] << 16 | frame[3] << 8 | frame[2]`
from the source. -/
def emitcodeOf (f : List Nat) : Nat :=
  f.getD 5 0 <<< 24 ||| f.getD 4 0 <<< 16 ||| f.getD 3 0 <<< 8 ||| f.getD 2 0

/-- `epostcode = frame[6]` from the source. -/
def epostcodeOf (f : List Nat) : Nat := f.getD 6 0

/-- `time_ms = frame[7] | frame[8] << 8` from the source. -/
def timeMsOf (f : List Nat) : Nat := f.getD 7 0 ||| f.getD 8 0 <<< 8

/-- `time_overflows = frame[9]` from the source. -/
def overflowsOf (f : List Nat) : Nat := f.getD 9 0

/-- `resend = (frame[0] & 0x0F) == 15` from the source (C comparison
yields 0 or 1). -/
def resendOf (f : List Nat) : Nat :=
  if (f.getD 0 0 &&& 0x0F) = 15 then 1 else 0

/-- The stored trailer word `frame[9 + 1] << 8 | frame[9 + 2]` from the
source, i.e. bytes 10 and 11, high byte first. -/
def trailerWordOf (f : List Nat) : Nat := f.getD 10 0 <<< 8 ||| f.getD 11 0

/-- `combitime_ms = time_overflows * 65536 + time_ms` from the source.
(Fits C's `uint32_t`: at most 255 * 65536 + 65535 < 2^24.) -/
def combitimeOf (f : List Nat) : Nat := overflowsOf f * 65536 + timeMsOf f

/-- `ms = combitime_ms % 1000` from the source. -/
def msOf (c : Nat) : Nat := c % 1000

/-- `secs = (combitime_ms - ms) / 1000 % 60` from the source (the
`uint16_t` cast never truncates: the value is below 60). -/
def secsOf (c : Nat) : Nat := (c - c % 1000) / 1000 % 60

/-- `mins = ((combitime_ms - ms) / 1000) / 60` from the source (the
`uint16_t` cast never truncates: the value is at most 2^24 / 60000). -/
def minsOf (c : Nat) : Nat := (c - c % 1000) / 1000 / 60

/-- The indices `i` at which the source's dewhitening loop
`for (i = 0; i < sizeof(frame); ++i) frame[i] ^= whitening[i];` reads the
whitening table: `frame` is declared `uint8_t frame[20]`, so the loop
bound is 20. -/
def whiteningLoopIndices : List Nat := List.range 20

/-- Shallow embedding of `emit_epost_decode`. The clock argument is the
milliseconds value `clock_gettime` + rounding would produce, `none`
standing for a failed clock read; the source reads the clock
unconditionally at function entry, so every result has `clockCalls = 1`.
Branches follow the source line by line: no-rows check, marker search,
minimum-length check, dewhitening and field extraction, `msgno` sanity
check, CRC comparison, emission. -/
def emit_epost_decode (clock : Option Nat) (bb : Bitbuffer) : DecodeResult :=
  match clock with
  | none => ⟨-1, Outcome.clockFail, none, 1, 0⟩
  | some millis =>
    if bb.rows.length < 1 then
      ⟨DECODE_ABORT_EARLY, Outcome.noData, none, 1, 0⟩
    else if startPos bb = (rowOf bb).length then
      ⟨DECODE_ABORT_EARLY, Outcome.noMarker, none, 1, 0⟩
    else if (rowOf bb).length < (10 + 8) * 8 then
      ⟨DECODE_ABORT_LENGTH, Outcome.tooShort, none, 1, 0⟩
    else if msgnoOf (workFrame bb) > 3 then
      ⟨DECODE_FAIL_SANITY, Outcome.sanityFail, none, 1, 1⟩
    else if trailerWordOf (workFrame bb) ≠ crc16 (workFrame bb) 10 0x8005 0xffff then
      ⟨DECODE_FAIL_MIC, Outcome.micFail, none, 1, 1⟩
    else
      ⟨1, Outcome.emit,
        some ⟨emitcodeOf (workFrame bb), epostcodeOf (workFrame bb),
              minsOf (combitimeOf (workFrame bb)),
              secsOf (combitimeOf (workFrame bb)),
              msOf (combitimeOf (workFrame bb)),
              resendOf (workFrame bb), millis⟩,
        1, 1⟩

/-- Spec-side definition, following the layout table of §4.4 word for
word, for refinement comparison with the source-derived extractors:
`message_index`: byte 0, mask `0x30`, shift right 4. -/
def spec_message_index (f : List Nat) : Nat := (f.getD 0 0 &&& 0x30) >>> 4

/-- Spec-side definition (§4.4 layout table): `card_identifier`: bytes
2,3,4,5, little-endian, `byte5<<24 | byte4<<16 | byte3<<8 | byte2`. -/
def spec_card_identifier (f : List Nat) : Nat :=
  f.getD 5 0 <<< 24 ||| f.getD 4 0 <<< 16 ||| f.getD 3 0 <<< 8 ||| f.getD 2 0

/-- Spec-side definition (§4.4 layout table): `unit_code`: byte 6. -/
def spec_unit_code (f : List Nat) : Nat := f.getD 6 0

/-- Spec-side definition (§4.4 layout table): `sub_ms`: bytes 7,8,
little-endian, `byte7 | byte8<<8`. -/
def spec_sub_ms (f : List Nat) : Nat := f.getD 7 0 ||| f.getD 8 0 <<< 8

/-- Spec-side definition (§4.4 layout table): `overflow_count`: byte 9. -/
def spec_overflow_count (f : List Nat) : Nat := f.getD 9 0

/-- Spec-side definition (§4.4 layout table): `checksum_trailer`: bytes
10,11, big-endian, high byte first. -/
def spec_checksum_trailer (f : List Nat) : Nat :=
  f.getD 10 0 <<< 8 ||| f.getD 11 0

/-- The returned value each terminal state carries in the source: the
clock-read failure returns the literal `-1`, no-data and no-marker both
return `DECODE_ABORT_EARLY`, and success returns 1. -/
def retOfOutcome : Outcome → Int
  | Outcome.clockFail => -1
  | Outcome.noData => DECODE_ABORT_EARLY
  | Outcome.noMarker => DECODE_ABORT_EARLY
  | Outcome.tooShort => DECODE_ABORT_LENGTH
  | Outcome.sanityFail => DECODE_FAIL_SANITY
  | Outcome.micFail => DECODE_FAIL_MIC
  | Outcome.emit => 1

/-- The five terminal failure states named by §6/§7 of the spec (the
clock-read failure is the source's own addition and emission is not a
failure). -/
def isTerminalFailure : Outcome → Bool
  | Outcome.noData => true
  | Outcome.noMarker => true
  | Outcome.tooShort => true
  | Outcome.sanityFail => true
  | Outcome.micFail => true
  | _ => false

/-- A buffer with no rows at all. -/
def bbEmpty : Bitbuffer := ⟨[]⟩

/-- One non-empty 100-bit all-zero row: shorter than 144 bits and with no
marker occurrence. -/
def bbNoMarker : Bitbuffer := ⟨[List.replicate 100 false]⟩

/-- One row holding exactly the 48 marker bits and nothing else: the
marker is found at offset 0 but the row is far shorter than 144 bits. -/
def bbShortMarker : Bitbuffer := ⟨[preambleBits]⟩

/-- A plaintext (dewhitened) 10-byte payload used to build end-to-end
test frames: `msgno` = 2, low nibble 15 is avoided (1), card identifier
0x12345678, unit code 7, `sub_ms` = 1000, `overflow_count` = 1. -/
def testPlain : List Nat :=
  [0x21, 0x0F, 0x78, 0x56, 0x34, 0x12, 0x07, 0xE8, 0x03, 0x01]

/-- The CRC of the test payload. -/
def testCrcVal : Nat := crc16 testPlain 10 0x8005 0xffff

/-- The full 12-byte dewhitened test frame: payload plus big-endian CRC
trailer. -/
def testFrame12 : List Nat := testPlain ++ [testCrcVal / 256, testCrcVal % 256]

/-- The test frame as transmitted: whitened byte by byte. -/
def testWhitened : List Nat :=
  List.zipWith (fun b w => b ^^^ w) testFrame12 whitening

/-- A 144-bit row: marker followed by the whitened test frame. -/
def testRow : List Bool := preambleBits ++ bytesToBits testWhitened

/-- A buffer whose single row decodes successfully. -/
def testBB : Bitbuffer := ⟨[testRow]⟩

/-- Like `testBB` but with the lowest bit of the CRC trailer flipped
before whitening: the checksum comparison must fail. -/
def bbBadCrc : Bitbuffer :=
  ⟨[preambleBits ++ bytesToBits (List.zipWith (fun b w => b ^^^ w)
      (testPlain ++ [testCrcVal / 256, (testCrcVal % 256) ^^^ 1]) whitening)]⟩

/-- A 144-bit row whose marker only starts at bit 8: eight one-bits, the
48 marker bits, then 88 zero bits. It passes the total-length guard while
`startPos + 48 + 96` exceeds the row length. -/
def bbOffsetMarker : Bitbuffer :=
  ⟨[List.replicate 8 true ++ preambleBits ++ List.replicate 88 false]⟩

/-- A frame whose time fields encode `sub_ms` = 1000 (bytes 7,8 =
0xE8, 0x03) and `overflow_count` = 1 (byte 9). -/
def exampleTimeFrame : List Nat :=
  [0, 0, 0, 0, 0, 0, 0, 0xE8, 0x03, 0x01, 0, 0]

set_option maxRecDepth 100000

/-- A 2-bit mask shifted down can only yield 0–3. -/
lemma msgno_le_three (f : List Nat) : msgnoOf f ≤ 3 := by
  have h : f.getD 0 0 &&& 0x30 ≤ 0x30 := Nat.and_le_right
  unfold msgnoOf
  rw [Nat.shiftRight_eq_div_pow]
  exact le_trans (Nat.div_le_div_right h) (by norm_num)

/-- XOR against a keystream list, applied twice, is the identity on
sequences no longer than the keystream. -/
lemma zipWith_xor_cancel : ∀ (ws bs : List Nat), bs.length ≤ ws.length →
    List.zipWith (fun b w => b ^^^ w)
      (List.zipWith (fun b w => b ^^^ w) bs ws) ws = bs := by
  intro ws
  induction ws with
  | nil =>
    intro bs h
    have hbs : bs = [] := List.eq_nil_of_length_eq_zero (Nat.le_zero.mp h)
    subst hbs
    rfl
  | cons w ws ih =>
    intro bs h
    cases bs with
    | nil => rfl
    | cons b bs =>
      simp only [List.zipWith_cons_cons]
      refine congrArg₂ List.cons ?_ (ih bs (Nat.le_of_succ_le_succ h))
      rw [Nat.xor_assoc, Nat.xor_self, Nat.xor_zero]

/-- Subtracting the millisecond remainder before dividing changes
nothing: `(c - c % 1000) / 1000 = c / 1000`. -/
lemma sub_mod_div (c : Nat) : (c - c % 1000) / 1000 = c / 1000 := by omega

/-- C3: dewhitening is an involution: for every byte sequence of length
at most the keystream length, applying the keystream XOR twice yields
the original sequence. -/
theorem C3_dewhitening_involution (bs : List Nat)
    (h : bs.length ≤ whitening.length) :
    dewhiten (dewhiten bs) = bs :=
  zipWith_xor_cancel whitening bs h

/-- Witness for C3 at a concrete three-byte sequence. -/
theorem C3_witness :
    ([0x12, 0x34, 0x56] : List Nat).length ≤ whitening.length ∧
    dewhiten (dewhiten [0x12, 0x34, 0x56]) = [0x12, 0x34, 0x56] :=
  ⟨by decide, C3_dewhitening_involution [0x12, 0x34, 0x56] (by decide)⟩

/-- C4: for every dewhitened frame the reconstructed elapsed time is
`overflow_count * 65536 + sub_ms`, and it is decomposed into minutes,
seconds and milliseconds by division and remainder; in particular
`sub_ms` = 1000 with `overflow_count` = 1 gives elapsed 66536 ms =
1 min, 6 s, 536 ms. -/
theorem C4_time_reconstruction (f : List Nat) :
    combitimeOf f = overflowsOf f * 65536 + timeMsOf f ∧
    msOf (combitimeOf f) = combitimeOf f % 1000 ∧
    secsOf (combitimeOf f) = combitimeOf f / 1000 % 60 ∧
    minsOf (combitimeOf f) = combitimeOf f / 1000 / 60 ∧
    combitimeOf exampleTimeFrame = 66536 ∧
    minsOf 66536 = 1 ∧ secsOf 66536 = 6 ∧ msOf 66536 = 536 := by
  refine ⟨rfl, rfl, ?_, ?_, by decide, by decide, by decide, by decide⟩
  · unfold secsOf
    rw [sub_mod_div]
  · unfold minsOf
    rw [sub_mod_div]

/-- C5: the field unpacker matches the layout table of the spec: message
index from byte 0 masked `0x30` shifted right 4, resend flag 1 exactly
when the low nibble of byte 0 is 15, card identifier little-endian from
bytes 2–5, unit code byte 6, `sub_ms` little-endian from bytes 7,8,
overflow count byte 9, checksum trailer big-endian from bytes 10,11. -/
theorem C5_field_unpacker (f : List Nat) :
    msgnoOf f = spec_message_index f ∧
    (resendOf f = 1 ↔ (f.getD 0 0 &&& 0x0F) = 15) ∧
    resendOf f ≤ 1 ∧
    emitcodeOf f = spec_card_identifier f ∧
    epostcodeOf f = spec_unit_code f ∧
    timeMsOf f = spec_sub_ms f ∧
    overflowsOf f = spec_overflow_count f ∧
    trailerWordOf f = spec_checksum_trailer f := by
  refine ⟨rfl, ?_, ?_, rfl, rfl, rfl, rfl, rfl⟩
  · unfold resendOf
    split <;> simp_all
  · unfold resendOf
    split <;> simp

/-- C7: the source's dewhitening loop iterates over `sizeof(frame)` = 20
indices while the whitening table has only 18 entries, so the loop reads
the table out of bounds at indices 18 and 19; the claim that every index
stays below 18 fails. -/
theorem C7_keystream_bounds :
    whitening.length = 18 ∧
    18 ∈ whiteningLoopIndices ∧ 19 ∈ whiteningLoopIndices ∧
    ¬ (∀ i ∈ whiteningLoopIndices, i < whitening.length) := by decide

/-- Reaching the sanity-failure state requires an out-of-range message
index. -/
lemma outcome_sanity_imp (clock : Option Nat) (bb : Bitbuffer)
    (h : (emit_epost_decode clock bb).outcome = Outcome.sanityFail) :
    3 < msgnoOf (workFrame bb) := by
  cases clock with
  | none => simp [emit_epost_decode] at h
  | some m =>
    simp only [emit_epost_decode] at h
    split_ifs at h with h1 h2 h3 h4 h5
    exact h4

/-- Returning the sanity-failure code requires an out-of-range message
index. -/
lemma ret_sanity_imp (clock : Option Nat) (bb : Bitbuffer)
    (h : (emit_epost_decode clock bb).ret = DECODE_FAIL_SANITY) :
    3 < msgnoOf (workFrame bb) := by
  cases clock with
  | none =>
    simp [emit_epost_decode, DECODE_FAIL_SANITY] at h
  | some m =>
    simp only [emit_epost_decode] at h
    split_ifs at h with h1 h2 h3 h4 h5
    · simp [DECODE_ABORT_EARLY, DECODE_FAIL_SANITY] at h
    · simp [DECODE_ABORT_EARLY, DECODE_FAIL_SANITY] at h
    · simp [DECODE_ABORT_LENGTH, DECODE_FAIL_SANITY] at h
    · exact h4
    · simp [DECODE_FAIL_MIC, DECODE_FAIL_SANITY] at h
    · simp [DECODE_FAIL_SANITY] at h

/-- C9: the message-index sanity failure is unreachable: the 2-bit mask
bounds `msgno` by 3, so no decode returns the sanity-failure code or ends
in the sanity-failure state. -/
theorem C9_sanity_check_unreachable (clock : Option Nat) (bb : Bitbuffer) :
    msgnoOf (workFrame bb) ≤ 3 ∧
    (emit_epost_decode clock bb).outcome ≠ Outcome.sanityFail ∧
    (emit_epost_decode clock bb).ret ≠ DECODE_FAIL_SANITY := by
  have hm := msgno_le_three (workFrame bb)
  refine ⟨hm, fun h => ?_, fun h => ?_⟩
  · exact absurd (outcome_sanity_imp clock bb h) (by omega)
  · exact absurd (ret_sanity_imp clock bb h) (by omega)

/-- The value a decode returns is a function of the terminal state it
reaches. -/
lemma decode_ret_outcome (clock : Option Nat) (bb : Bitbuffer) :
    (emit_epost_decode clock bb).ret =
      retOfOutcome (emit_epost_decode clock bb).outcome := by
  cases clock with
  | none => rfl
  | some m =>
    simp only [emit_epost_decode]
    split_ifs <;> rfl

/-- C1: once a decode reaches the checksum stage (a row exists, the
marker was found and the length guard passed), a record is emitted
exactly when the CRC-16 (poly `0x8005`, init `0xFFFF`) of the first 10
dewhitened bytes equals the big-endian trailer word in bytes 10 and 11;
on inequality the decode returns the integrity failure and no record. -/
theorem C1_checksum_gate (m : Nat) (bb : Bitbuffer)
    (h1 : 1 ≤ bb.rows.length)
    (h2 : startPos bb ≠ (rowOf bb).length)
    (h3 : 144 ≤ (rowOf bb).length) :
    ((emit_epost_decode (some m) bb).record.isSome = true ↔
      trailerWordOf (workFrame bb) = crc16 (workFrame bb) 10 0x8005 0xffff) ∧
    (trailerWordOf (workFrame bb) ≠ crc16 (workFrame bb) 10 0x8005 0xffff →
      (emit_epost_decode (some m) bb).ret = DECODE_FAIL_MIC ∧
      (emit_epost_decode (some m) bb).record = none) := by
  have h1' : ¬ bb.rows.length < 1 := by omega
  have h3' : ¬ (rowOf bb).length < (10 + 8) * 8 := by omega
  have hm : ¬ msgnoOf (workFrame bb) > 3 := by
    have := msgno_le_three (workFrame bb)
    omega
  by_cases hcrc :
      trailerWordOf (workFrame bb) = crc16 (workFrame bb) 10 0x8005 0xffff
  · refine ⟨?_, fun hne => absurd hcrc hne⟩
    simp [emit_epost_decode, h1', h2, h3', hm, hcrc]
  · have hd : emit_epost_decode (some m) bb =
        ⟨DECODE_FAIL_MIC, Outcome.micFail, none, 1, 1⟩ := by
      simp [emit_epost_decode, h1', h2, h3', hm, hcrc]
    refine ⟨?_, fun _ => ?_⟩
    · rw [hd]
      simp [hcrc]
    · rw [hd]
      exact ⟨rfl, rfl⟩

/-- Witness for C1: a concrete 144-bit row (marker plus whitened frame
with a valid trailer) satisfies the three guards and is emitted, its
trailer matching the CRC. -/
theorem C1_witness :
    (1 ≤ testBB.rows.length ∧ startPos testBB ≠ (rowOf testBB).length ∧
      144 ≤ (rowOf testBB).length) ∧
    trailerWordOf (workFrame testBB) =
      crc16 (workFrame testBB) 10 0x8005 0xffff ∧
    ((emit_epost_decode (some 0) testBB).record.isSome = true ↔
      trailerWordOf (workFrame testBB) =
        crc16 (workFrame testBB) 10 0x8005 0xffff) :=
  ⟨⟨by decide, by decide, by decide⟩, by decide,
    (C1_checksum_gate 0 testBB (by decide) (by decide) (by decide)).1⟩

/-- C2 counterexample: an empty buffer ends in the no-data state and an
all-zero row ends in the no-marker state — two different terminal failure
states — yet both decodes return the same value. -/
theorem C2_counterexample :
    (emit_epost_decode (some 0) bbEmpty).outcome = Outcome.noData ∧
    (emit_epost_decode (some 0) bbNoMarker).outcome = Outcome.noMarker ∧
    (emit_epost_decode (some 0) bbEmpty).outcome ≠
      (emit_epost_decode (some 0) bbNoMarker).outcome ∧
    (emit_epost_decode (some 0) bbEmpty).ret =
      (emit_epost_decode (some 0) bbNoMarker).ret := by decide

/-- C2 amended: the length, sanity and integrity failures are
distinguishable by returned value from each other and from every other
terminal failure; only the no-data and no-marker failures share a value
(both return the abort-early code). -/
theorem C2_failure_codes (c c' : Option Nat) (bb bb' : Bitbuffer)
    (h : (emit_epost_decode c bb).outcome = Outcome.tooShort ∨
         (emit_epost_decode c bb).outcome = Outcome.sanityFail ∨
         (emit_epost_decode c bb).outcome = Outcome.micFail)
    (h2 : isTerminalFailure (emit_epost_decode c' bb').outcome = true)
    (hne : (emit_epost_decode c bb).outcome ≠
           (emit_epost_decode c' bb').outcome) :
    (emit_epost_decode c bb).ret ≠ (emit_epost_decode c' bb').ret := by
  rw [decode_ret_outcome c bb, decode_ret_outcome c' bb']
  generalize (emit_epost_decode c bb).outcome = o at h hne ⊢
  generalize (emit_epost_decode c' bb').outcome = o' at h2 hne ⊢
  cases o <;> cases o' <;>
    simp_all [retOfOutcome, isTerminalFailure, DECODE_ABORT_EARLY,
      DECODE_ABORT_LENGTH, DECODE_FAIL_MIC, DECODE_FAIL_SANITY]

/-- Witness for C2: a too-short row and a bad-CRC row end in different
failure states and return different values. -/
theorem C2_witness :
    (emit_epost_decode (some 0) bbShortMarker).outcome = Outcome.tooShort ∧
    (emit_epost_decode (some 0) bbBadCrc).outcome = Outcome.micFail ∧
    (emit_epost_decode (some 0) bbShortMarker).ret ≠
      (emit_epost_decode (some 0) bbBadCrc).ret :=
  ⟨by decide, by decide,
    C2_failure_codes (some 0) (some 0) bbShortMarker bbBadCrc
      (Or.inl (by decide)) (by decide) (by decide)⟩

/-- C6 counterexample: a non-empty 100-bit row (shorter than 144 bits)
containing no marker terminates at the marker search with the abort-early
value, not at the length guard. -/
theorem C6_counterexample :
    (rowOf bbNoMarker).length = 100 ∧ rowOf bbNoMarker ≠ [] ∧
    (emit_epost_decode (some 0) bbNoMarker).outcome = Outcome.noMarker ∧
    (emit_epost_decode (some 0) bbNoMarker).outcome ≠ Outcome.tooShort ∧
    (emit_epost_decode (some 0) bbNoMarker).ret ≠ DECODE_ABORT_LENGTH := by
  decide

/-- C6 amended: for every row shorter than 144 bits the byte extractor is
never invoked; the decode ends at the length guard with the
insufficient-length failure exactly when at least one row exists and the
marker search succeeded, and at an earlier guard otherwise. -/
theorem C6_short_row (m : Nat) (bb : Bitbuffer)
    (h : (rowOf bb).length < 144) :
    (emit_epost_decode (some m) bb).extractorCalls = 0 ∧
    (1 ≤ bb.rows.length → startPos bb ≠ (rowOf bb).length →
      (emit_epost_decode (some m) bb).ret = DECODE_ABORT_LENGTH ∧
      (emit_epost_decode (some m) bb).outcome = Outcome.tooShort) := by
  have h' : (rowOf bb).length < (10 + 8) * 8 := by omega
  constructor
  · simp only [emit_epost_decode]
    split_ifs with h1 h2 <;> rfl
  · intro hr hs
    have hr' : ¬ bb.rows.length < 1 := by omega
    simp [emit_epost_decode, hr', hs, h']

/-- Witness for C6 amended: the 48-bit marker-only row is shorter than
144 bits, the extractor is not invoked, and the decode ends with the
insufficient-length failure. -/
theorem C6_witness :
    (rowOf bbShortMarker).length < 144 ∧
    (emit_epost_decode (some 0) bbShortMarker).extractorCalls = 0 ∧
    (emit_epost_decode (some 0) bbShortMarker).ret = DECODE_ABORT_LENGTH ∧
    (emit_epost_decode (some 0) bbShortMarker).outcome = Outcome.tooShort := by
  have h := C6_short_row 0 bbShortMarker (by decide)
  have h2 := h.2 (by decide) (by decide)
  exact ⟨by decide, h.1, h2.1, h2.2⟩

/-- C8 counterexample: a 144-bit row whose marker starts at bit 8 passes
the marker search and the length guard and the extractor is invoked, yet
`located_offset + 48 + 96` exceeds the row's bit length. -/
theorem C8_counterexample :
    1 ≤ bbOffsetMarker.rows.length ∧
    startPos bbOffsetMarker ≠ (rowOf bbOffsetMarker).length ∧
    144 ≤ (rowOf bbOffsetMarker).length ∧
    (emit_epost_decode (some 0) bbOffsetMarker).extractorCalls = 1 ∧
    ¬ (startPos bbOffsetMarker + 48 + 96 ≤ (rowOf bbOffsetMarker).length) := by
  decide

/-- C8 amended: whenever the byte extractor is invoked the row holds at
least `48 + 96` bits in total; the stronger bound relative to the located
offset does not hold in general, so extraction can read past the row's
end (such bits read as zero in this model). -/
theorem C8_extract_length_guard (clock : Option Nat) (bb : Bitbuffer)
    (h : (emit_epost_decode clock bb).extractorCalls ≠ 0) :
    48 + 96 ≤ (rowOf bb).length := by
  cases clock with
  | none => exact absurd rfl h
  | some m =>
    simp only [emit_epost_decode] at h
    split_ifs at h with h1 h2 h3 h4 h5 <;>
      first | exact absurd rfl h | omega

/-- Witness for C8 amended: the successful test row invokes the
extractor and indeed holds at least 144 bits. -/
theorem C8_witness :
    (emit_epost_decode (some 0) testBB).extractorCalls ≠ 0 ∧
    48 + 96 ≤ (rowOf testBB).length :=
  ⟨by decide, C8_extract_length_guard (some 0) testBB (by decide)⟩

/-- C10 counterexample: the decode of an empty buffer fails (no record,
not the emit state) yet the wall clock was read once, because the source
reads it unconditionally at function entry. -/
theorem C10_counterexample :
    (emit_epost_decode (some 0) bbEmpty).record = none ∧
    (emit_epost_decode (some 0) bbEmpty).outcome ≠ Outcome.emit ∧
    (emit_epost_decode (some 0) bbEmpty).clockCalls = 1 := by decide

/-- C10 amended: the wall clock is read exactly once per decode
invocation — at entry, before any validation, on failing attempts as
well — and a failed clock read itself aborts the decode with the literal
return value -1 and no record. -/
theorem C10_clock_read (clock : Option Nat) (bb : Bitbuffer) :
    (emit_epost_decode clock bb).clockCalls = 1 ∧
    (clock = none → (emit_epost_decode clock bb).ret = -1 ∧
      (emit_epost_decode clock bb).record = none) := by
  constructor
  · cases clock with
    | none => rfl
    | some m =>
      simp only [emit_epost_decode]
      split_ifs <;> rfl
  · intro h
    subst h
    exact ⟨rfl, rfl⟩

/-- Witness for C10 amended: at a failed clock read the decode still
counts one clock call and returns -1 with no record. -/
theorem C10_witness :
    (emit_epost_decode none bbEmpty).clockCalls = 1 ∧
    (emit_epost_decode none bbEmpty).ret = -1 ∧
    (emit_epost_decode none bbEmpty).record = none := by
  have h := C10_clock_read none bbEmpty
  exact ⟨h.1, (h.2 rfl).1, (h.2 rfl).2⟩

end EmitEpost
